import Mathlib

/-
  Verification of drivers/power/charger_limiter.c (charger limiter control loop).

  Shallow embedding: the module-level C state (charging_off, charge_should_off,
  charging_below, charging_limit) becomes explicit state threaded through pure
  functions; the external actuator power_supply_set_charging_enabled is modelled
  by an oracle `ok : Nat -> Bool` giving the success of the n-th call in a cycle,
  and each cycle records the list of arguments passed to the actuator.
-/

namespace ChargerLimiter

/-- Kernel constant: POWER_SUPPLY_STATUS_CHARGING has value 1 in
    include/linux/power_supply.h. -/
def POWER_SUPPLY_STATUS_CHARGING : Int := 1

/-- The two threshold tunables, `static int charging_below` and
    `static int charging_limit` in the source. -/
structure Config where
  charging_below : Int
  charging_limit : Int
deriving Repr, DecidableEq

/-- The control-loop state: `static bool charging_off` (the spec's
    charging_suppressed) and `static bool charge_should_off` (the spec's
    pending_stop). -/
structure ClState where
  charging_off : Bool
  charge_should_off : Bool
deriving Repr, DecidableEq

/-- One sample of the power-supply properties read by the worker.
    `available = false` models the `!batt_psy->get_property ||
    !usb_psy->get_property` early-exit path; `status`, `capacity` and
    `usb_present` are the three `intval`s read via get_property. -/
structure Snapshot where
  available : Bool
  status : Int
  capacity : Int
  usb_present : Int
deriving Repr, DecidableEq

/-- `enable_disable_charging(batt_psy, enable)`: calls the actuator only on a
    state transition; on success (`ok n = true`, i.e. rc == 0) it flips
    `charging_off`, on failure it leaves it unchanged. Returns the new
    `charging_off`, the list of arguments passed to
    power_supply_set_charging_enabled, and the next call counter. -/
def enable_disable_charging (charging_off : Bool) (enable : Bool)
    (ok : Nat → Bool) (n : Nat) : Bool × List Bool × Nat :=
  if charging_off && enable then
    (if ok n then false else charging_off, [true], n + 1)
  else if !charging_off && !enable then
    (if ok n then true else charging_off, [false], n + 1)
  else
    (charging_off, [], n)

/-- Result of one invocation of the worker: the new control state, the
    actuator calls made this cycle (arguments in order), and the `ms_timer`
    passed to reschedule_worker. -/
structure CycleOut where
  state : ClState
  calls : List Bool
  ms_timer : Nat
deriving Repr, DecidableEq

/-- `charger_limiter_worker`: one cycle of the control loop, translated
    branch-for-branch from the source.  The unavailable path (`ms_timer =
    5000; goto reschedule`) makes no actuator call and leaves the state
    unchanged; otherwise the worker first resumes charging when
    `bat_percent <= charging_below`, then inside the charging/USB-present
    branch either resumes again, or handles the upper threshold with the
    `charge_should_off` debounce. -/
def charger_limiter_worker (cfg : Config) (s : ClState) (snap : Snapshot)
    (ok : Nat → Bool) : CycleOut :=
  if !snap.available then
    { state := s, calls := [], ms_timer := 5000 }
  else
    let step1 :=
      if snap.capacity ≤ cfg.charging_below then
        enable_disable_charging s.charging_off true ok 0
      else (s.charging_off, [], 0)
    let co1 := step1.1
    let calls1 := step1.2.1
    let n1 := step1.2.2
    if snap.status = POWER_SUPPLY_STATUS_CHARGING ∨ snap.usb_present ≠ 0 then
      if snap.capacity ≤ cfg.charging_below then
        let step2 := enable_disable_charging co1 true ok n1
        { state := { charging_off := step2.1, charge_should_off := s.charge_should_off },
          calls := calls1 ++ step2.2.1, ms_timer := 1000 }
      else if snap.capacity ≥ cfg.charging_limit then
        if s.charge_should_off then
          let step2 := enable_disable_charging co1 false ok n1
          { state := { charging_off := step2.1, charge_should_off := false },
            calls := calls1 ++ step2.2.1, ms_timer := 1000 }
        else
          { state := { charging_off := co1, charge_should_off := true },
            calls := calls1, ms_timer := 10000 }
      else
        { state := { charging_off := co1, charge_should_off := s.charge_should_off },
          calls := calls1, ms_timer := 1000 }
    else
      { state := { charging_off := co1, charge_should_off := s.charge_should_off },
        calls := calls1, ms_timer := 1000 }

/-- Run the worker over a list of snapshots (one cycle per snapshot, the same
    actuator oracle each cycle), returning the final state and all actuator
    calls made, in order. -/
def run_cycles (cfg : Config) (s : ClState) (snaps : List Snapshot)
    (ok : Nat → Bool) : ClState × List Bool :=
  match snaps with
  | [] => (s, [])
  | snap :: rest =>
    let out := charger_limiter_worker cfg s snap ok
    let r := run_cycles cfg out.state rest ok
    (r.1, out.calls ++ r.2)

/-- `stop_charger_limiter`: after cancelling the work, if the battery power
    supply was found it runs `enable_disable_charging(batt_psy, true)`.
    Returns the new `charging_off` and the actuator calls made. -/
def stop_charger_limiter (batt_found : Bool) (charging_off : Bool)
    (ok : Nat → Bool) : Bool × List Bool :=
  if batt_found then
    let r := enable_disable_charging charging_off true ok 0
    (r.1, r.2.1)
  else (charging_off, [])

/-- `store_charging_below`: the sysfs write handler for `charging_below`,
    given the parsed unsigned input and the current pair of tunables; clamps
    the input to at most 100, stores it, then forces `charging_limit - 5`
    when the stored value is >= `charging_limit`. -/
def store_charging_below (input : Nat) (charging_below charging_limit : Int) :
    Int :=
  let input := if input > 100 then 100 else input
  let b : Int := (input : Int)
  if b ≥ charging_limit then charging_limit - 5 else b

/-- `store_charging_limit`: the sysfs write handler for `charging_limit`;
    clamps the input to at most 100, stores it, then forces
    `charging_below + 5` when the stored value is <= `charging_below`. -/
def store_charging_limit (input : Nat) (charging_below charging_limit : Int) :
    Int :=
  let input := if input > 100 then 100 else input
  let l : Int := (input : Int)
  if l ≤ charging_below then charging_below + 5 else l

/-- A write to one of the two threshold tunables (the parsed `%u` value). -/
inductive TunableWrite
  | below (v : Nat)
  | limit (v : Nat)
deriving Repr, DecidableEq

/-- Apply one tunable write to the pair (charging_below, charging_limit). -/
def applyWrite (w : TunableWrite) (p : Int × Int) : Int × Int :=
  match w with
  | .below v => (store_charging_below v p.1 p.2, p.2)
  | .limit v => (p.1, store_charging_limit v p.1 p.2)

/-- Initial tunables: `static int charging_below = 95; static int
    charging_limit = 100;`. -/
def initTunables : Int × Int := (95, 100)

/-- Apply a sequence of tunable writes starting from the initial values. -/
def applyWrites (ws : List TunableWrite) : Int × Int :=
  ws.foldl (fun p w => applyWrite w p) initTunables

/-! ### Helper lemmas: per-cycle branch characterizations -/

/-- A cycle that sees capacity at/over the limit from a state with
    `charge_should_off = false` only arms the debounce flag: no actuator call,
    `charging_off` unchanged, 10-second interval. -/
theorem worker_high_arm (cfg : Config) (s : ClState) (snap : Snapshot)
    (ok : Nat → Bool)
    (ha : snap.available = true)
    (hb : ¬ snap.capacity ≤ cfg.charging_below)
    (hl : snap.capacity ≥ cfg.charging_limit)
    (hs : snap.status = POWER_SUPPLY_STATUS_CHARGING ∨ snap.usb_present ≠ 0)
    (hp : s.charge_should_off = false) :
    charger_limiter_worker cfg s snap ok =
      ⟨⟨s.charging_off, true⟩, [], 10000⟩ := by
  simp [charger_limiter_worker, ha, hb, hl, hs, hp]

/-- A cycle that sees capacity at/over the limit from a state with
    `charge_should_off = true` performs the stop transition: the actuator is
    called with `false` exactly when `charging_off` is still false, the flag
    is cleared, and `charging_off` becomes true on actuator success. -/
theorem worker_high_stop (cfg : Config) (s : ClState) (snap : Snapshot)
    (ok : Nat → Bool)
    (ha : snap.available = true)
    (hb : ¬ snap.capacity ≤ cfg.charging_below)
    (hl : snap.capacity ≥ cfg.charging_limit)
    (hs : snap.status = POWER_SUPPLY_STATUS_CHARGING ∨ snap.usb_present ≠ 0)
    (hp : s.charge_should_off = true) :
    charger_limiter_worker cfg s snap ok =
      ⟨⟨s.charging_off || ok 0, false⟩,
        if s.charging_off then [] else [false], 1000⟩ := by
  cases hco : s.charging_off <;> cases hk : ok 0 <;>
    simp [charger_limiter_worker, enable_disable_charging, ha, hb, hl, hs, hp,
      hco, hk]

/-- A cycle that sees capacity at/under `charging_below`, with a succeeding
    actuator, always ends with `charging_off = false` and leaves
    `charge_should_off` untouched. -/
theorem worker_low_ok (cfg : Config) (s : ClState) (snap : Snapshot)
    (ok : Nat → Bool)
    (ha : snap.available = true)
    (hb : snap.capacity ≤ cfg.charging_below)
    (hok : ∀ n, ok n = true) :
    (charger_limiter_worker cfg s snap ok).state =
      ⟨false, s.charge_should_off⟩ := by
  by_cases hs : snap.status = POWER_SUPPLY_STATUS_CHARGING ∨ snap.usb_present ≠ 0 <;>
    cases hco : s.charging_off <;>
      simp [charger_limiter_worker, enable_disable_charging, ha, hb, hs, hco, hok]

/-- While `charging_off = true`, a cycle whose capacity is at/over the limit
    (and over `charging_below`) makes no actuator call and keeps
    `charging_off = true`, whatever its status/USB fields and whether the
    sample is available. -/
theorem worker_suppressed_high (cfg : Config) (s : ClState) (snap : Snapshot)
    (ok : Nat → Bool)
    (hco : s.charging_off = true)
    (hb : ¬ snap.capacity ≤ cfg.charging_below) :
    (charger_limiter_worker cfg s snap ok).calls = [] ∧
    (charger_limiter_worker cfg s snap ok).state.charging_off = true := by
  by_cases ha : snap.available = true
  · by_cases hs : snap.status = POWER_SUPPLY_STATUS_CHARGING ∨ snap.usb_present ≠ 0
    · by_cases hl : snap.capacity ≥ cfg.charging_limit <;>
        cases hp : s.charge_should_off <;>
          simp [charger_limiter_worker, enable_disable_charging, ha, hb, hs, hl,
            hp, hco]
    · simp [charger_limiter_worker, ha, hb, hs, hco]
  · have ha' : snap.available = false := by simpa using ha
    simp [charger_limiter_worker, ha', hco]

/-- The invariant actually maintained by the two store handlers: the pair
    stays strictly ordered, `charging_below` within [-5, 100] and
    `charging_limit` within [0, 105]. -/
def TunablesInv (p : Int × Int) : Prop :=
  -5 ≤ p.1 ∧ p.1 ≤ 100 ∧ 0 ≤ p.2 ∧ p.2 ≤ 105 ∧ p.1 < p.2

/-- One tunable write preserves `TunablesInv`. -/
theorem tunablesInv_applyWrite (w : TunableWrite) (p : Int × Int)
    (h : TunablesInv p) : TunablesInv (applyWrite w p) := by
  obtain ⟨h1, h2, h3, h4, h5⟩ := h
  cases w with
  | below v =>
    simp only [applyWrite, store_charging_below, TunablesInv]
    split_ifs <;> refine ⟨by omega, by omega, by omega, by omega, by omega⟩
  | limit v =>
    simp only [applyWrite, store_charging_limit, TunablesInv]
    split_ifs <;> refine ⟨by omega, by omega, by omega, by omega, by omega⟩

/-- Folding any list of writes from a `TunablesInv` state stays in
    `TunablesInv`. -/
theorem tunablesInv_foldl (ws : List TunableWrite) (p : Int × Int)
    (h : TunablesInv p) :
    TunablesInv (ws.foldl (fun q w => applyWrite w q) p) := by
  induction ws generalizing p with
  | nil => exact h
  | cons w rest ih => exact ih _ (tunablesInv_applyWrite w p h)

/-- Every sequence of writes from the initial tunables lands in
    `TunablesInv`. -/
theorem tunablesInv_applyWrites (ws : List TunableWrite) :
    TunablesInv (applyWrites ws) :=
  tunablesInv_foldl ws initTunables
    ⟨by norm_num [initTunables], by norm_num [initTunables],
     by norm_num [initTunables], by norm_num [initTunables],
     by norm_num [initTunables]⟩

/-! ### Claim theorems -/

/-- C1: Debounce at the upper threshold.  From Active (charging_off = false,
    charge_should_off = false), one cycle at/over `charging_limit` with
    charging status or USB present makes no actuator call, sets
    `charge_should_off`, and returns a 10000 ms interval; a second consecutive
    such cycle calls set_charging(false) and clears `charge_should_off`. -/
theorem debounce_two_cycles (cfg : Config) (snap1 snap2 : Snapshot)
    (ok : Nat → Bool)
    (hgap : cfg.charging_below < cfg.charging_limit)
    (h1a : snap1.available = true)
    (h1c : snap1.capacity ≥ cfg.charging_limit)
    (h1s : snap1.status = POWER_SUPPLY_STATUS_CHARGING ∨ snap1.usb_present ≠ 0)
    (h2a : snap2.available = true)
    (h2c : snap2.capacity ≥ cfg.charging_limit)
    (h2s : snap2.status = POWER_SUPPLY_STATUS_CHARGING ∨ snap2.usb_present ≠ 0) :
    charger_limiter_worker cfg ⟨false, false⟩ snap1 ok =
      ⟨⟨false, true⟩, [], 10000⟩ ∧
    (charger_limiter_worker cfg ⟨false, true⟩ snap2 ok).calls = [false] ∧
    (charger_limiter_worker cfg ⟨false, true⟩ snap2 ok).state.charge_should_off
      = false := by
  have hb1 : ¬ snap1.capacity ≤ cfg.charging_below := by omega
  have hb2 : ¬ snap2.capacity ≤ cfg.charging_below := by omega
  refine ⟨?_, ?_, ?_⟩
  · rw [worker_high_arm cfg ⟨false, false⟩ snap1 ok h1a hb1 h1c h1s rfl]
  · rw [worker_high_stop cfg ⟨false, true⟩ snap2 ok h2a hb2 h2c h2s rfl]
    simp
  · rw [worker_high_stop cfg ⟨false, true⟩ snap2 ok h2a hb2 h2c h2s rfl]

/-- C1 witness: the debounce theorem at config (95, 100), capacity 100,
    status Charging. -/
theorem debounce_two_cycles_witness :
    charger_limiter_worker ⟨95, 100⟩ ⟨false, false⟩ ⟨true, 1, 100, 0⟩
        (fun _ => true) =
      ⟨⟨false, true⟩, [], 10000⟩ ∧
    (charger_limiter_worker ⟨95, 100⟩ ⟨false, true⟩ ⟨true, 1, 100, 0⟩
        (fun _ => true)).calls = [false] ∧
    (charger_limiter_worker ⟨95, 100⟩ ⟨false, true⟩ ⟨true, 1, 100, 0⟩
        (fun _ => true)).state.charge_should_off = false :=
  debounce_two_cycles ⟨95, 100⟩ ⟨true, 1, 100, 0⟩ ⟨true, 1, 100, 0⟩
    (fun _ => true) (by decide) rfl (by decide) (by decide) rfl (by decide)
    (by decide)

/-- C2 counterexample: a single in-range write `charging_below := 96` from the
    initial tunables (95, 100) is stored unchanged, leaving a gap of 4, so the
    claimed invariant `charging_limit - charging_below >= 5` is false. -/
theorem gap_counterexample :
    applyWrites [TunableWrite.below 96] = (96, 100) ∧
    ¬ (applyWrites [TunableWrite.below 96]).2 -
        (applyWrites [TunableWrite.below 96]).1 ≥ 5 := by
  decide

/-- C2 amended: after every sequence of writes the tunables satisfy the
    strict order `charging_below < charging_limit` (equivalently a gap of at
    least 1); the handlers only force a gap of 5 when a write lands at or
    across the other threshold. -/
theorem gap_amended (ws : List TunableWrite) :
    (applyWrites ws).1 < (applyWrites ws).2 :=
  (tunablesInv_applyWrites ws).2.2.2.2

/-- C3 counterexample: stopping the loop with the battery supply found but
    `charging_off = false` makes no actuator call at all, refuting
    "exactly one final set_charging(true) call issued unconditionally,
    ignoring charging_suppressed". -/
theorem shutdown_counterexample :
    stop_charger_limiter true false (fun _ => true) = (false, []) := by
  decide

/-- C3 amended: on stop (battery supply found), set_charging(true) is called
    exactly once if `charging_off` is true and not at all if it is false —
    the shutdown path reuses the conditional transition rule rather than an
    unconditional call, so charging is still re-enabled whenever the loop had
    suppressed it. -/
theorem shutdown_conditional (charging_off : Bool) (ok : Nat → Bool) :
    (stop_charger_limiter true charging_off ok).2 =
      if charging_off then [true] else [] := by
  cases charging_off <;>
    simp [stop_charger_limiter, enable_disable_charging]

/-- C4 counterexample: the combination (charging_off = true,
    charge_should_off = true) IS reachable from (false, false): three cycles
    at capacity 100 with status Charging (config 95/100, actuator succeeding)
    arm the debounce, perform the stop, then re-arm the debounce while
    charging stays suppressed. -/
theorem suppressed_pending_reachable :
    (run_cycles ⟨95, 100⟩ ⟨false, false⟩
      [⟨true, 1, 100, 0⟩, ⟨true, 1, 100, 0⟩, ⟨true, 1, 100, 0⟩]
      (fun _ => true)).1 = ⟨true, true⟩ := by
  decide

/-- C4 amended: what does hold is that the stop transition itself always
    clears the debounce flag — any cycle entered with `charge_should_off =
    true` and an at/over-limit charging/USB snapshot ends with
    `charge_should_off = false`; (true, true) is nevertheless reachable
    because a later at/over-limit cycle re-arms the flag without touching
    `charging_off`. -/
theorem stop_clears_pending (cfg : Config) (s : ClState) (snap : Snapshot)
    (ok : Nat → Bool)
    (hp : s.charge_should_off = true)
    (ha : snap.available = true)
    (hb : ¬ snap.capacity ≤ cfg.charging_below)
    (hl : snap.capacity ≥ cfg.charging_limit)
    (hs : snap.status = POWER_SUPPLY_STATUS_CHARGING ∨ snap.usb_present ≠ 0) :
    (charger_limiter_worker cfg s snap ok).state.charge_should_off = false := by
  rw [worker_high_stop cfg s snap ok ha hb hl hs hp]

/-- C4 witness: the amended theorem at config (95, 100), state (false, true),
    capacity 100, status Charging. -/
theorem stop_clears_pending_witness :
    (charger_limiter_worker ⟨95, 100⟩ ⟨false, true⟩ ⟨true, 1, 100, 0⟩
      (fun _ => true)).state.charge_should_off = false :=
  stop_clears_pending ⟨95, 100⟩ ⟨false, true⟩ ⟨true, 1, 100, 0⟩
    (fun _ => true) rfl rfl (by decide) (by decide) (by decide)

/-- C5: Resume dominance.  For every available snapshot with capacity at/under
    `charging_below`, the cycle ends with `charging_off = false`, whatever the
    prior state and the snapshot's status/USB fields, provided the actuator
    succeeds. -/
theorem resume_dominance (cfg : Config) (s : ClState) (snap : Snapshot)
    (ok : Nat → Bool)
    (ha : snap.available = true)
    (hc : snap.capacity ≤ cfg.charging_below)
    (hok : ∀ n, ok n = true) :
    (charger_limiter_worker cfg s snap ok).state.charging_off = false := by
  rw [worker_low_ok cfg s snap ok ha hc hok]

/-- C5 witness: resume dominance from the suppressed-and-armed state with a
    Discharging, no-USB snapshot at capacity 50. -/
theorem resume_dominance_witness :
    (charger_limiter_worker ⟨95, 100⟩ ⟨true, true⟩ ⟨true, 2, 50, 0⟩
      (fun _ => true)).state.charging_off = false :=
  resume_dominance ⟨95, 100⟩ ⟨true, true⟩ ⟨true, 2, 50, 0⟩ (fun _ => true)
    rfl (by decide) (fun _ => rfl)

/-- C6: Idempotent actuation.  Starting suppressed (`charging_off = true`),
    a whole run of available cycles each reporting capacity at/over
    `charging_limit` makes no actuator call and stays suppressed. -/
theorem idempotent_suppressed (cfg : Config) (snaps : List Snapshot)
    (s : ClState) (ok : Nat → Bool)
    (hgap : cfg.charging_below < cfg.charging_limit)
    (hco : s.charging_off = true)
    (hall : ∀ snap ∈ snaps,
      snap.available = true ∧ snap.capacity ≥ cfg.charging_limit) :
    (run_cycles cfg s snaps ok).2 = [] ∧
    (run_cycles cfg s snaps ok).1.charging_off = true := by
  induction snaps generalizing s with
  | nil => simpa [run_cycles] using hco
  | cons snap rest ih =>
    obtain ⟨ha, hl⟩ := hall snap (List.mem_cons_self _ _)
    have hb : ¬ snap.capacity ≤ cfg.charging_below := by omega
    have hcyc := worker_suppressed_high cfg s snap ok hco hb
    have hrest := ih (charger_limiter_worker cfg s snap ok).state hcyc.2
      (fun sn hm => hall sn (List.mem_cons_of_mem _ hm))
    simp [run_cycles, hcyc.1, hrest.1, hrest.2]

/-- C6 witness: two suppressed cycles at capacity 100 (one Charging, one USB
    present only) make no calls and stay suppressed. -/
theorem idempotent_suppressed_witness :
    (run_cycles ⟨95, 100⟩ ⟨true, false⟩
      [⟨true, 1, 100, 0⟩, ⟨true, 0, 100, 1⟩] (fun _ => true)).2 = [] ∧
    (run_cycles ⟨95, 100⟩ ⟨true, false⟩
      [⟨true, 1, 100, 0⟩, ⟨true, 0, 100, 1⟩]
      (fun _ => true)).1.charging_off = true :=
  idempotent_suppressed ⟨95, 100⟩ [⟨true, 1, 100, 0⟩, ⟨true, 0, 100, 1⟩]
    ⟨true, false⟩ (fun _ => true) (by decide) rfl (by decide)

/-- C7: Actuator-failure atomicity.  When every actuator call fails,
    `charging_off` is left unchanged by the cycle and the worker still
    returns one of the three reschedule intervals. -/
theorem actuator_failure_atomicity (cfg : Config) (s : ClState)
    (snap : Snapshot) (ok : Nat → Bool)
    (hfail : ∀ n, ok n = false) :
    (charger_limiter_worker cfg s snap ok).state.charging_off =
      s.charging_off ∧
    ((charger_limiter_worker cfg s snap ok).ms_timer = 1000 ∨
     (charger_limiter_worker cfg s snap ok).ms_timer = 5000 ∨
     (charger_limiter_worker cfg s snap ok).ms_timer = 10000) := by
  by_cases ha : snap.available = true
  · by_cases hb : snap.capacity ≤ cfg.charging_below <;>
      by_cases hs : snap.status = POWER_SUPPLY_STATUS_CHARGING ∨
        snap.usb_present ≠ 0 <;>
        by_cases hl : snap.capacity ≥ cfg.charging_limit <;>
          cases hp : s.charge_should_off <;>
            cases hco : s.charging_off <;>
              simp [charger_limiter_worker, enable_disable_charging, ha, hb,
                hs, hl, hp, hco, hfail]
  · have ha' : snap.available = false := by simpa using ha
    simp [charger_limiter_worker, ha']

/-- C7 witness: a failed resume attempt (suppressed state, capacity 50, USB
    present) leaves `charging_off = true` and reschedules. -/
theorem actuator_failure_atomicity_witness :
    (charger_limiter_worker ⟨95, 100⟩ ⟨true, false⟩ ⟨true, 1, 50, 1⟩
      (fun _ => false)).state.charging_off = true ∧
    ((charger_limiter_worker ⟨95, 100⟩ ⟨true, false⟩ ⟨true, 1, 50, 1⟩
        (fun _ => false)).ms_timer = 1000 ∨
     (charger_limiter_worker ⟨95, 100⟩ ⟨true, false⟩ ⟨true, 1, 50, 1⟩
        (fun _ => false)).ms_timer = 5000 ∨
     (charger_limiter_worker ⟨95, 100⟩ ⟨true, false⟩ ⟨true, 1, 50, 1⟩
        (fun _ => false)).ms_timer = 10000) :=
  actuator_failure_atomicity ⟨95, 100⟩ ⟨true, false⟩ ⟨true, 1, 50, 1⟩
    (fun _ => false) (fun _ => rfl)

/-- C8: Unavailable-sample non-mutation.  A cycle whose snapshot is
    unavailable makes no actuator call, leaves the state unchanged and
    returns a 5000 ms interval. -/
theorem unavailable_non_mutation (cfg : Config) (s : ClState)
    (snap : Snapshot) (ok : Nat → Bool)
    (ha : snap.available = false) :
    charger_limiter_worker cfg s snap ok = ⟨s, [], 5000⟩ := by
  simp [charger_limiter_worker, ha]

/-- C8 witness: the unavailable path from the suppressed-and-armed state. -/
theorem unavailable_non_mutation_witness :
    charger_limiter_worker ⟨95, 100⟩ ⟨true, true⟩ ⟨false, 0, 0, 0⟩
      (fun _ => true) = ⟨⟨true, true⟩, [], 5000⟩ :=
  unavailable_non_mutation ⟨95, 100⟩ ⟨true, true⟩ ⟨false, 0, 0, 0⟩
    (fun _ => true) rfl

/-- C9 counterexample: the write sequence below := 0, limit := 3, below := 50
    drives `charging_below` to 3 - 5 = -2, outside the claimed 0..100
    range. -/
theorem range_counterexample :
    (applyWrites [TunableWrite.below 0, TunableWrite.limit 3,
      TunableWrite.below 50]).1 = -2 ∧
    ¬ 0 ≤ (applyWrites [TunableWrite.below 0, TunableWrite.limit 3,
      TunableWrite.below 50]).1 := by
  decide

/-- C9 amended: after every sequence of writes, `charging_below` lies in
    [-5, 100] and `charging_limit` lies in [0, 105]; the clamp of the raw
    input to at most 100 holds, but the gap-repair arithmetic can push
    `charging_below` down to -5 and `charging_limit` up to 105. -/
theorem range_amended (ws : List TunableWrite) :
    -5 ≤ (applyWrites ws).1 ∧ (applyWrites ws).1 ≤ 100 ∧
    0 ≤ (applyWrites ws).2 ∧ (applyWrites ws).2 ≤ 105 :=
  ⟨(tunablesInv_applyWrites ws).1, (tunablesInv_applyWrites ws).2.1,
   (tunablesInv_applyWrites ws).2.2.1, (tunablesInv_applyWrites ws).2.2.2.1⟩

/-- C10: a successful resume does not clear the debounce flag: from any state
    with `charge_should_off = true`, a low-capacity cycle ends in state
    (false, true), and the very next at/over-limit charging/USB cycle calls
    set_charging(false) immediately and lands in (true, false) — no fresh
    two-cycle debounce. -/
theorem resume_keeps_pending (cfg : Config) (s : ClState)
    (snap1 snap2 : Snapshot) (ok : Nat → Bool)
    (hok : ∀ n, ok n = true)
    (hgap : cfg.charging_below < cfg.charging_limit)
    (hp : s.charge_should_off = true)
    (h1a : snap1.available = true)
    (h1c : snap1.capacity ≤ cfg.charging_below)
    (h2a : snap2.available = true)
    (h2c : snap2.capacity ≥ cfg.charging_limit)
    (h2s : snap2.status = POWER_SUPPLY_STATUS_CHARGING ∨ snap2.usb_present ≠ 0) :
    (charger_limiter_worker cfg s snap1 ok).state = ⟨false, true⟩ ∧
    (charger_limiter_worker cfg ⟨false, true⟩ snap2 ok).calls = [false] ∧
    (charger_limiter_worker cfg ⟨false, true⟩ snap2 ok).state =
      ⟨true, false⟩ := by
  have hb2 : ¬ snap2.capacity ≤ cfg.charging_below := by omega
  have h1 := worker_low_ok cfg s snap1 ok h1a h1c hok
  refine ⟨by rw [h1, hp], ?_, ?_⟩
  · rw [worker_high_stop cfg ⟨false, true⟩ snap2 ok h2a hb2 h2c h2s rfl]
    simp
  · rw [worker_high_stop cfg ⟨false, true⟩ snap2 ok h2a hb2 h2c h2s rfl]
    simp [hok]

/-- C10 witness: resume at capacity 90 with the flag armed, then an immediate
    stop at capacity 100 with status Charging. -/
theorem resume_keeps_pending_witness :
    (charger_limiter_worker ⟨95, 100⟩ ⟨true, true⟩ ⟨true, 2, 90, 0⟩
      (fun _ => true)).state = ⟨false, true⟩ ∧
    (charger_limiter_worker ⟨95, 100⟩ ⟨false, true⟩ ⟨true, 1, 100, 0⟩
      (fun _ => true)).calls = [false] ∧
    (charger_limiter_worker ⟨95, 100⟩ ⟨false, true⟩ ⟨true, 1, 100, 0⟩
      (fun _ => true)).state = ⟨true, false⟩ :=
  resume_keeps_pending ⟨95, 100⟩ ⟨true, true⟩ ⟨true, 2, 90, 0⟩
    ⟨true, 1, 100, 0⟩ (fun _ => true) (fun _ => rfl) (by decide) rfl rfl
    (by decide) rfl (by decide) (by decide)

end ChargerLimiter
